import Mathlib

/-!
Shallow embedding of the SHT31 temperature/humidity sensor driver
(FloppyDisck/SHT31-rs).  Machine bytes (u8) and words (u16) are modelled as
`Nat` with explicit `% 256` where overflow matters; the i16 interpretation
used by the conversion code is modelled as `Int`; the f32 arithmetic of the
raw-to-physical conversion is modelled exactly over `ℚ` (the properties
below concern which bytes feed the formulas, not float rounding).  The
external I2C bus and the delay provider are modelled as explicit parameters:
a `Bool` for whether a write succeeds, and a function from the attempt index
to the transport's result for reads; sleeps are counted, not performed.
-/

namespace SHT

/-- Error kinds, from `src/error.rs` (`SHTError`).  The `ReadI2CError`
variant is the one `i2c_read` in `src/lib.rs` produces for transport read
failures (the repository's `error.rs` revision and its `lib.rs` revision
differ on whether it is listed; the reads under study go through
`i2c_read`). -/
inductive SHTError where
  | WriteReadI2CError : SHTError
  | WriteI2CError : SHTError
  | ReadI2CError : SHTError
  | InvalidHumidityChecksumError
      (bytes_start bytes_end expected_checksum calculated_checksum : Nat) : SHTError
  | InvalidTemperatureChecksumError
      (bytes_start bytes_end expected_checksum calculated_checksum : Nat) : SHTError
  | InvalidStatusChecksumError
      (bytes_start bytes_end expected_checksum calculated_checksum : Nat) : SHTError
  | ReadingTimeoutError : SHTError
  | PlaceholderError : SHTError
deriving DecidableEq

/-- One round of the non-reflected CRC-8 with polynomial 0x31, as performed by
the `crc` crate for `CRC_ALGORITHM` in `src/lib.rs` (width 8, poly 0x31,
refin/refout false, xorout 0): shift left, xor the polynomial when the top
bit was set, truncated to 8 bits. -/
def crcRound (c : Nat) : Nat :=
  if c &&& 0x80 ≠ 0 then ((c <<< 1) ^^^ 0x31) % 256 else (c <<< 1) % 256

/-- Feed one byte into the CRC state: xor it in, then run 8 rounds. -/
def crcFeed (c b : Nat) : Nat :=
  crcRound^[8] ((c ^^^ b) % 256)

/-- `calculate_checksum` from `src/lib.rs`: CRC-8 (poly 0x31, init 0xFF,
no reflection, no final xor) over the two bytes `[msb, lsb]`. -/
def calculate_checksum (msb lsb : Nat) : Nat :=
  crcFeed (crcFeed 0xFF msb) lsb

/-- A 6-byte response buffer `[u8; 6]`. -/
structure Buffer6 where
  b0 : Nat
  b1 : Nat
  b2 : Nat
  b3 : Nat
  b4 : Nat
  b5 : Nat
deriving DecidableEq

/-- `verify_reading` from `src/lib.rs`: checks the temperature group
`buffer[0..2]` against `buffer[2]`, then the humidity group `buffer[3..5]`
against `buffer[5]`. -/
def verify_reading (buffer : Buffer6) : Except SHTError Unit :=
  let temp_result := calculate_checksum buffer.b0 buffer.b1
  if temp_result ≠ buffer.b2 then
    Except.error (SHTError.InvalidTemperatureChecksumError
      buffer.b0 buffer.b1 buffer.b2 temp_result)
  else
    let humidity_result := calculate_checksum buffer.b3 buffer.b4
    if humidity_result ≠ buffer.b5 then
      Except.error (SHTError.InvalidHumidityChecksumError
        buffer.b3 buffer.b4 buffer.b5 humidity_result)
    else
      Except.ok ()

example : calculate_checksum 98 153 = 188 := by decide
example : calculate_checksum 98 32 = 139 := by decide
example : calculate_checksum 255 255 = 172 := by decide
example : calculate_checksum 0 0 = 129 := by decide
example : verify_reading ⟨98, 153, 188, 98, 32, 139⟩ = Except.ok () := by rfl

/-- `TemperatureUnit` from `src/lib.rs` (default is `Fahrenheit`). -/
inductive TemperatureUnit where
  | Celsius : TemperatureUnit
  | Fahrenheit : TemperatureUnit
deriving DecidableEq

/-- Rust `TemperatureUnit::default()` (the `#[default]` variant). -/
def TemperatureUnit.default : TemperatureUnit := TemperatureUnit.Fahrenheit

/-- `Accuracy` from `src/lib.rs` (default is `High`). -/
inductive Accuracy where
  | High : Accuracy
  | Medium : Accuracy
  | Low : Accuracy
deriving DecidableEq

/-- Rust `Accuracy::default()` (the `#[default]` variant). -/
def Accuracy.default : Accuracy := Accuracy.High

/-- `DeviceAddr` from `src/lib.rs` (default is `AD0`). -/
inductive DeviceAddr where
  | AD0 : DeviceAddr
  | AD1 : DeviceAddr
deriving DecidableEq

/-- The discriminant of a `DeviceAddr` (`DeviceAddr::AD0 as u8`). -/
def DeviceAddr.toByte : DeviceAddr → Nat
  | DeviceAddr.AD0 => 0x44
  | DeviceAddr.AD1 => 0x45

/-- Rust `DeviceAddr::default()` (the `#[default]` variant). -/
def DeviceAddr.default : DeviceAddr := DeviceAddr.AD0

/-- `i16::from_be_bytes([msb, lsb])` for byte inputs: two's-complement signed
16-bit interpretation of the big-endian pair. -/
def i16_from_be_bytes (msb lsb : Nat) : Int :=
  let u := msb * 256 + lsb
  if u < 32768 then (u : Int) else (u : Int) - 65536

/-- `u16::from_be_bytes([msb, lsb])`: unsigned big-endian interpretation. -/
def u16_from_be_bytes (msb lsb : Nat) : Nat :=
  msb * 256 + lsb

/-- `CONVERSION_DENOM` (2^16 - 1) from `src/lib.rs`, over ℚ. -/
def CONVERSION_DENOM : ℚ := 65535

/-- `CELSIUS_PAIR` (subtrahend, multiplier) from `src/lib.rs`. -/
def CELSIUS_PAIR : ℚ × ℚ := (45, 175)

/-- `FAHRENHEIT_PAIR` (subtrahend, multiplier) from `src/lib.rs`. -/
def FAHRENHEIT_PAIR : ℚ × ℚ := (49, 315)

/-- `Reading` from `src/lib.rs`, with the two f32 fields modelled over ℚ. -/
structure Reading where
  temperature : ℚ
  humidity : ℚ
deriving DecidableEq

/-- `process_data` from `src/lib.rs`: verify the checksums, then convert.
Note the source computes `raw_temp` AND `raw_humidity` both as
`i16::from_be_bytes([buffer[0], buffer[1]])` (signed, temperature bytes). -/
def process_data (unit : TemperatureUnit) (buffer : Buffer6) : Except SHTError Reading :=
  match verify_reading buffer with
  | Except.error e => Except.error e
  | Except.ok _ =>
    let raw_temp : ℚ := (i16_from_be_bytes buffer.b0 buffer.b1 : ℚ)
    let p := match unit with
      | TemperatureUnit.Celsius => CELSIUS_PAIR
      | TemperatureUnit.Fahrenheit => FAHRENHEIT_PAIR
    let pre_sub := p.2 * (raw_temp / CONVERSION_DENOM)
    let temperature := pre_sub - p.1
    let raw_humidity : ℚ := (i16_from_be_bytes buffer.b0 buffer.b1 : ℚ)
    let humidity := 100 * raw_humidity / CONVERSION_DENOM
    Except.ok ⟨temperature, humidity⟩

/-- `Status` from `src/lib.rs`. -/
structure Status where
  checksum_failed : Bool
  last_command_processed : Bool
  system_reset : Bool
  t_alert : Bool
  rh_alert : Bool
  heater_on : Bool
  pending_alert : Bool
deriving DecidableEq

/-- `bit_flag` from `src/lib.rs`: `n & (1 << pos) != 0`. -/
def bit_flag (n : Nat) (pos : Nat) : Bool :=
  (n &&& (1 <<< pos)) != 0

/-- `Status::from_bytes` from `src/lib.rs`. -/
def Status.from_bytes (bytes : Nat) : Status :=
  ⟨bit_flag bytes 0, !bit_flag bytes 1, bit_flag bytes 4,
   bit_flag bytes 10, bit_flag bytes 11, bit_flag bytes 13, bit_flag bytes 15⟩

/-- `MPS` (measurements per second) from `src/mode/periodic.rs`. -/
inductive MPS where
  | Half : MPS
  | Normal : MPS
  | Double : MPS
  | X4 : MPS
  | X10 : MPS
deriving DecidableEq

/-- The discriminant of an `MPS` value (`self.mode.mps as u8`). -/
def MPS.toByte : MPS → Nat
  | MPS.Half => 0x20
  | MPS.Normal => 0x21
  | MPS.Double => 0x22
  | MPS.X4 => 0x23
  | MPS.X10 => 0x27

/-- `Periodic` mode configuration from `src/mode/periodic.rs`. -/
structure Periodic where
  mps : MPS
  art : Bool
deriving DecidableEq

/-- `Periodic::new` from `src/mode/periodic.rs`. -/
def Periodic.new : Periodic := ⟨MPS.Normal, false⟩

/-- The two command bytes written by `Sht31Measure::measure` for
`SHT31<Periodic, I2C>` in `src/mode/periodic.rs`. -/
def periodic_measure_bytes (mode : Periodic) (accuracy : Accuracy) : Nat × Nat :=
  if mode.art then
    (0x2B, 0x32)
  else
    let lsb := match mode.mps with
      | MPS.Half => match accuracy with
        | Accuracy.High => 0x32
        | Accuracy.Medium => 0x24
        | Accuracy.Low => 0x2F
      | MPS.Normal => match accuracy with
        | Accuracy.High => 0x30
        | Accuracy.Medium => 0x26
        | Accuracy.Low => 0x2D
      | MPS.Double => match accuracy with
        | Accuracy.High => 0x36
        | Accuracy.Medium => 0x20
        | Accuracy.Low => 0x2B
      | MPS.X4 => match accuracy with
        | Accuracy.High => 0x34
        | Accuracy.Medium => 0x22
        | Accuracy.Low => 0x29
      | MPS.X10 => match accuracy with
        | Accuracy.High => 0x37
        | Accuracy.Medium => 0x21
        | Accuracy.Low => 0x2A
    (mode.mps.toByte, lsb)

/-- `SimpleSingleShot` mode configuration from
`src/mode/simple_single_shot.rs` (u8 / u64 fields as `Nat`). -/
structure SimpleSingleShot where
  max_retries : Nat
  ms_delay : Nat
deriving DecidableEq

/-- `SimpleSingleShot::new` from `src/mode/simple_single_shot.rs`. -/
def SimpleSingleShot.new : SimpleSingleShot := ⟨8, 100⟩

/-- `SingleShot` marker mode from `src/mode/single_shot.rs`. -/
structure SingleShot where
deriving DecidableEq

/-- `SingleShot::new` from `src/mode/single_shot.rs`. -/
def SingleShot.new : SingleShot := ⟨⟩

/-- The `SHT31<Mode, I2C>` handle from `src/lib.rs`. -/
structure SHT31 (Mode : Type) (I2C : Type) where
  mode : Mode
  i2c : I2C
  address : Nat
  accuracy : Accuracy
  unit : TemperatureUnit
  heater : Bool

/-- `SHT31::simple_single_shot` from `src/lib.rs`: constructor with the
default address, unit, accuracy and heater off. -/
def SHT31.simple_single_shot {I2C : Type} (i2c : I2C) (mode : SimpleSingleShot) :
    SHT31 SimpleSingleShot I2C :=
  ⟨mode, i2c, DeviceAddr.default.toByte, Accuracy.default, TemperatureUnit.default, false⟩

/-- `SHT31::new` from `src/lib.rs`: delegates to `simple_single_shot` with a
freshly constructed `SimpleSingleShot` mode.  (In the repository revision of
`src/lib.rs` the mode constructor receives the external delay provider; the
mode revision in `src/mode/simple_single_shot.rs` holds only the retry
configuration, which is what this embedding models.  The handle defaults
under study are identical either way.) -/
def SHT31.new {I2C : Type} (i2c : I2C) : SHT31 SimpleSingleShot I2C :=
  SHT31.simple_single_shot i2c SimpleSingleShot.new

/-- `SHT31::periodic` from `src/lib.rs`. -/
def SHT31.periodic {I2C : Type} (i2c : I2C) (mode : Periodic) : SHT31 Periodic I2C :=
  ⟨mode, i2c, DeviceAddr.default.toByte, Accuracy.default, TemperatureUnit.default, false⟩

/-- `SHT31::single_shot` from `src/lib.rs`. -/
def SHT31.single_shot {I2C : Type} (i2c : I2C) (mode : SingleShot) : SHT31 SingleShot I2C :=
  ⟨mode, i2c, DeviceAddr.default.toByte, Accuracy.default, TemperatureUnit.default, false⟩

/-- `SHT31::with_mode` from `src/lib.rs`: consumes the handle, keeps the bus,
address, accuracy and unit, installs the new mode, and hard-codes
`heater := false`. -/
def SHT31.with_mode {Mode I2C NewMode : Type} (s : SHT31 Mode I2C) (mode : NewMode) :
    SHT31 NewMode I2C :=
  ⟨mode, s.i2c, s.address, s.accuracy, s.unit, false⟩

/-- Outcome of a heater operation: the returned `Result`, the handle state
after the call, and the two command bytes handed to `i2c_write`.  The bus
write itself is external; `writeOk` says whether it succeeds. -/
structure HeaterStep (Mode I2C : Type) where
  result : Except SHTError Unit
  state : SHT31 Mode I2C
  command : Nat × Nat

/-- `SHT31::switch_heater` from `src/lib.rs`: chooses the command lsb from
the current in-memory `heater` flag and writes `[0x30, lsb]`; on transport
failure `i2c_write` yields `WriteI2CError`.  The handle fields are not
touched here. -/
def SHT31.switch_heater {Mode I2C : Type} (s : SHT31 Mode I2C) (writeOk : Bool) :
    HeaterStep Mode I2C :=
  let lsb := if s.heater then 0x6D else 0x66
  ⟨if writeOk then Except.ok () else Except.error SHTError.WriteI2CError, s, (0x30, lsb)⟩

/-- `SHT31::set_heating` from `src/lib.rs`: sets `self.heater = heating`
FIRST, then calls `switch_heater`, returning whatever the write returns. -/
def SHT31.set_heating {Mode I2C : Type} (s : SHT31 Mode I2C) (heating : Bool)
    (writeOk : Bool) : HeaterStep Mode I2C :=
  SHT31.switch_heater ⟨s.mode, s.i2c, s.address, s.accuracy, s.unit, heating⟩ writeOk

/-- `SHT31::with_heating` from `src/lib.rs`: sets `self.heater = true`, then
calls `switch_heater` and propagates its error (`?`); on success returns the
updated handle. -/
def SHT31.with_heating {Mode I2C : Type} (s : SHT31 Mode I2C) (writeOk : Bool) :
    HeaterStep Mode I2C :=
  SHT31.switch_heater ⟨s.mode, s.i2c, s.address, s.accuracy, s.unit, true⟩ writeOk

/-- `true` exactly on `Except.error`. -/
def exceptIsError {ε α : Type} : Except ε α → Bool
  | Except.error _ => true
  | Except.ok _ => false

theorem exceptIsError_iff {ε α : Type} (x : Except ε α) :
    exceptIsError x = true ↔ ∃ e, x = Except.error e := by
  cases x with
  | error e => simp [exceptIsError]
  | ok a => simp [exceptIsError]

/-- `single_shot_read` from `src/mode/single_shot.rs`, driven by one
transport read result `r`: a transport-level read failure becomes
`ReadI2CError` (via `i2c_read`), and a successful 6-byte read is passed to
`process_data`. -/
def single_shot_read_model (unit : TemperatureUnit) (r : Except Unit Buffer6) :
    Except SHTError Reading :=
  match r with
  | Except.error _ => Except.error SHTError.ReadI2CError
  | Except.ok buffer => process_data unit buffer

/-- Observable trace of a `SimpleSingleShot` `read()` call: the returned
`Result`, the number of measure-command writes issued, the number of read
attempts performed, and the number of `sleep(ms_delay)` calls made. -/
structure ReadTrace where
  result : Except SHTError Reading
  writes : Nat
  reads : Nat
  sleeps : Nat

/-- The `for _ in 0..max_retries` loop of `read` in
`src/mode/simple_single_shot.rs`, with `fuel` iterations left, `reads` read
attempts and `sleeps` sleeps already performed, and `last` the current value
of `read_attempt`.  Each iteration runs `single_shot_read` on the next
transport result; on error it sleeps and continues, on success it returns at
once.  `transport k` is the external bus's answer to the k-th read attempt. -/
def read_retry_loop (unit : TemperatureUnit) (transport : Nat → Except Unit Buffer6) :
    Nat → Nat → Nat → Except SHTError Reading → ReadTrace
  | 0, reads, sleeps, last => ⟨last, 1, reads, sleeps⟩
  | fuel + 1, reads, sleeps, _ =>
    match single_shot_read_model unit (transport reads) with
    | Except.error e => read_retry_loop unit transport fuel (reads + 1) (sleeps + 1)
        (Except.error e)
    | Except.ok r => ⟨Except.ok r, 1, reads + 1, sleeps⟩

/-- `Sht31Reader::read` for `SHT31<SimpleSingleShot, I2C>` in
`src/mode/simple_single_shot.rs`: write the measure command `[0x2C, lsb]`
once (propagating a failed write), initialise `read_attempt` to
`Err(PlaceholderError)`, then loop `max_retries` times. -/
def simple_single_shot_read {I2C : Type} (s : SHT31 SimpleSingleShot I2C)
    (writeOk : Bool) (transport : Nat → Except Unit Buffer6) : ReadTrace :=
  if writeOk then
    read_retry_loop s.unit transport s.mode.max_retries 0 0
      (Except.error SHTError.PlaceholderError)
  else
    ⟨Except.error SHTError.WriteI2CError, 1, 0, 0⟩

theorem bit_flag_eq_testBit (n i : Nat) : bit_flag n i = n.testBit i := by
  unfold bit_flag
  cases h : n.testBit i with
  | true =>
    have h1 : (n &&& (1 <<< i)).testBit i = true := by
      rw [Nat.testBit_and, Nat.testBit_shiftLeft]
      simp [h]
    have h2 : n &&& (1 <<< i) ≠ 0 := by
      intro hz
      rw [hz] at h1
      simp [Nat.zero_testBit] at h1
    simpa [bne_iff_ne] using h2
  | false =>
    have h2 : n &&& (1 <<< i) = 0 := by
      apply Nat.zero_of_testBit_eq_false
      intro j
      rw [Nat.testBit_and, Nat.testBit_shiftLeft]
      by_cases hj : j = i
      · subst hj
        simp [h]
      · rcases Nat.lt_or_ge j i with hlt | hge
        · simp [Nat.not_le_of_lt hlt]
        · have hgt : i < j := Nat.lt_of_le_of_ne hge (fun he => hj he.symm)
          have hpos : 1 ≤ j - i := Nat.le_sub_of_add_le (by omega)
          have : Nat.testBit 1 (j - i) = false := by
            apply Nat.testBit_lt_two_pow
            calc 1 < 2 ^ 1 := by decide
            _ ≤ 2 ^ (j - i) := Nat.pow_le_pow_right (by decide) hpos
          simp [this]
    simp [h2]

deriving instance DecidableEq for Except

/-- C6: `verify_reading` on a 6-byte buffer succeeds exactly when byte 2 is
the checksum of bytes 0-1 and byte 5 is the checksum of bytes 3-4 (checksum:
CRC-8, poly 0x31, init 0xFF, no reflection, no final xor); a temperature
mismatch (checked first) yields `InvalidTemperatureChecksumError` carrying
the two data bytes, the expected checksum from the buffer and the calculated
checksum, and a humidity mismatch yields `InvalidHumidityChecksumError`
likewise. -/
theorem c6_verify_checksum (b0 b1 b2 b3 b4 b5 : Nat) :
    (verify_reading ⟨b0, b1, b2, b3, b4, b5⟩ = Except.ok () ↔
      (b2 = calculate_checksum b0 b1 ∧ b5 = calculate_checksum b3 b4)) ∧
    (b2 ≠ calculate_checksum b0 b1 →
      verify_reading ⟨b0, b1, b2, b3, b4, b5⟩ =
        Except.error (SHTError.InvalidTemperatureChecksumError b0 b1 b2
          (calculate_checksum b0 b1))) ∧
    (b2 = calculate_checksum b0 b1 → b5 ≠ calculate_checksum b3 b4 →
      verify_reading ⟨b0, b1, b2, b3, b4, b5⟩ =
        Except.error (SHTError.InvalidHumidityChecksumError b3 b4 b5
          (calculate_checksum b3 b4))) := by
  unfold verify_reading
  by_cases h1 : calculate_checksum b0 b1 = b2 <;>
    by_cases h2 : calculate_checksum b3 b4 = b5 <;>
      simp [h1, h2, eq_comm] <;> omega

/-- Witness for C6: the repository's golden buffer [98,153,188,98,32,139]
verifies successfully, via the first conjunct. -/
theorem c6_verify_checksum_witness :
    verify_reading ⟨98, 153, 188, 98, 32, 139⟩ = Except.ok () :=
  (c6_verify_checksum 98 153 188 98 32 139).1.mpr (by decide)

/-- C1 (code bug evaluation): on the checksum-valid buffer
[98,153,188,98,32,139], `process_data` computes the humidity from the
TEMPERATURE byte pair (98,153), raw 25241, yielding 100·25241/65535
(≈ 38.515297) — and not from the humidity byte pair (98,32), raw 25120,
which would give 100·25120/65535 (≈ 38.330663) as the claim requires. -/
theorem c1_humidity_from_temperature_bytes :
    process_data TemperatureUnit.Fahrenheit ⟨98, 153, 188, 98, 32, 139⟩ =
      Except.ok ⟨315 * ((25241 : ℚ) / 65535) - 49, 100 * (25241 : ℚ) / 65535⟩ ∧
    100 * (25241 : ℚ) / 65535 ≠
      100 * ((u16_from_be_bytes 98 32 : Nat) : ℚ) / 65535 := by
  have hv : verify_reading ⟨98, 153, 188, 98, 32, 139⟩ = Except.ok () := by rfl
  constructor
  · unfold process_data
    rw [hv]
    norm_num [i16_from_be_bytes, CONVERSION_DENOM, FAHRENHEIT_PAIR]
  · norm_num [u16_from_be_bytes]

/-- C2 (code bug evaluation): on a checksum-valid buffer whose temperature
bytes are (255,255), `process_data` interprets the raw temperature as the
SIGNED 16-bit value -1 (yielding 315·(-1/65535) - 49 ≈ -49.005 in
Fahrenheit), not as the unsigned value 65535 (which would give
315·(65535/65535) - 49 = 266 as the claim requires). -/
theorem c2_temperature_signed_not_unsigned :
    process_data TemperatureUnit.Fahrenheit
        ⟨255, 255, calculate_checksum 255 255, 0, 0, calculate_checksum 0 0⟩ =
      Except.ok ⟨315 * ((-1 : ℚ) / 65535) - 49, 100 * (-1 : ℚ) / 65535⟩ ∧
    315 * ((-1 : ℚ) / 65535) - 49 ≠
      315 * (((u16_from_be_bytes 255 255 : Nat) : ℚ) / 65535) - 49 := by
  have hv : verify_reading
      ⟨255, 255, calculate_checksum 255 255, 0, 0, calculate_checksum 0 0⟩ =
      Except.ok () := by rfl
  constructor
  · unfold process_data
    rw [hv]
    norm_num [i16_from_be_bytes, CONVERSION_DENOM, FAHRENHEIT_PAIR]
  · norm_num [u16_from_be_bytes]

/-- C4 (code bug evaluation): starting from a freshly constructed handle
(heater flag false), `set_heating true` against a failing bus write returns
`WriteI2CError` yet leaves the in-memory heater flag already set to true —
the flag is updated BEFORE the write, so a failed write does not preserve
the previous value; `with_heating` behaves the same. -/
theorem c4_heater_flag_updated_despite_write_failure :
    (SHT31.single_shot () SingleShot.new).heater = false ∧
    (SHT31.set_heating (SHT31.single_shot () SingleShot.new) true false).result =
      Except.error SHTError.WriteI2CError ∧
    (SHT31.set_heating (SHT31.single_shot () SingleShot.new) true false).state.heater =
      true ∧
    (SHT31.with_heating (SHT31.single_shot () SingleShot.new) false).result =
      Except.error SHTError.WriteI2CError ∧
    (SHT31.with_heating (SHT31.single_shot () SingleShot.new) false).state.heater =
      true :=
  ⟨rfl, rfl, rfl, rfl, rfl⟩

/-- C8: for every 16-bit status word, `Status::from_bytes` sets
`checksum_failed` from bit 0, `last_command_processed` as the logical
negation of bit 1, `system_reset` from bit 4, `t_alert` from bit 10,
`rh_alert` from bit 11, `heater_on` from bit 13, `pending_alert` from
bit 15; it ignores all other bits (words agreeing on those seven bits decode
identically); and 0x8010 decodes to pending_alert, system_reset and
last_command_processed true, everything else false. -/
theorem c8_status_decode :
    (∀ w : Nat,
      (Status.from_bytes w).checksum_failed = w.testBit 0 ∧
      (Status.from_bytes w).last_command_processed = !w.testBit 1 ∧
      (Status.from_bytes w).system_reset = w.testBit 4 ∧
      (Status.from_bytes w).t_alert = w.testBit 10 ∧
      (Status.from_bytes w).rh_alert = w.testBit 11 ∧
      (Status.from_bytes w).heater_on = w.testBit 13 ∧
      (Status.from_bytes w).pending_alert = w.testBit 15) ∧
    (∀ w v : Nat,
      (∀ i : Nat, (i = 0 ∨ i = 1 ∨ i = 4 ∨ i = 10 ∨ i = 11 ∨ i = 13 ∨ i = 15) →
        w.testBit i = v.testBit i) →
      Status.from_bytes w = Status.from_bytes v) ∧
    Status.from_bytes 0x8010 = ⟨false, true, true, false, false, false, true⟩ := by
  refine ⟨?_, ?_, by decide⟩
  · intro w
    simp [Status.from_bytes, bit_flag_eq_testBit]
  · intro w v h
    have h0 := h 0 (by tauto)
    have h1 := h 1 (by tauto)
    have h4 := h 4 (by tauto)
    have h10 := h 10 (by tauto)
    have h11 := h 11 (by tauto)
    have h13 := h 13 (by tauto)
    have h15 := h 15 (by tauto)
    simp [Status.from_bytes, bit_flag_eq_testBit, h0, h1, h4, h10, h11, h13, h15]

/-- Witness for C8 at concrete inputs: decoding is blind to bit 2 (words
0x8010 and 0x8014 decode identically), via the second conjunct. -/
theorem c8_status_decode_witness :
    Status.from_bytes 0x8010 = Status.from_bytes 0x8014 := by
  apply c8_status_decode.2.1
  intro i hi
  rcases hi with h | h | h | h | h | h | h <;> subst h <;> decide

/-- C7: `measure()` on a Periodic handle writes exactly the two bytes of the
spec table: with accelerated response (ART) the fixed pair {0x2B, 0x32}
regardless of frequency and accuracy; otherwise the msb keyed by
measurements-per-second and the lsb by the 15-entry (frequency × accuracy)
table. -/
theorem c7_periodic_command_table (mps : MPS) (accuracy : Accuracy) :
    periodic_measure_bytes ⟨mps, true⟩ accuracy = (0x2B, 0x32) ∧
    periodic_measure_bytes ⟨mps, false⟩ accuracy =
      ((match mps with
        | MPS.Half => 0x20
        | MPS.Normal => 0x21
        | MPS.Double => 0x22
        | MPS.X4 => 0x23
        | MPS.X10 => 0x27),
       (match mps, accuracy with
        | MPS.Half, Accuracy.High => 0x32
        | MPS.Half, Accuracy.Medium => 0x24
        | MPS.Half, Accuracy.Low => 0x2F
        | MPS.Normal, Accuracy.High => 0x30
        | MPS.Normal, Accuracy.Medium => 0x26
        | MPS.Normal, Accuracy.Low => 0x2D
        | MPS.Double, Accuracy.High => 0x36
        | MPS.Double, Accuracy.Medium => 0x20
        | MPS.Double, Accuracy.Low => 0x2B
        | MPS.X4, Accuracy.High => 0x34
        | MPS.X4, Accuracy.Medium => 0x22
        | MPS.X4, Accuracy.Low => 0x29
        | MPS.X10, Accuracy.High => 0x37
        | MPS.X10, Accuracy.Medium => 0x21
        | MPS.X10, Accuracy.Low => 0x2A)) := by
  cases mps <;> cases accuracy <;> exact ⟨rfl, rfl⟩

/-- C9: `with_mode` consumes the handle and returns one in the new mode with
the heater flag always false (even if heating was on before), while the bus
handle, address, accuracy and unit are carried over unchanged. -/
theorem c9_with_mode_frame {Mode I2C NewMode : Type} (s : SHT31 Mode I2C) (m : NewMode) :
    (s.with_mode m).heater = false ∧
    (s.with_mode m).mode = m ∧
    (s.with_mode m).i2c = s.i2c ∧
    (s.with_mode m).address = s.address ∧
    (s.with_mode m).accuracy = s.accuracy ∧
    (s.with_mode m).unit = s.unit :=
  ⟨rfl, rfl, rfl, rfl, rfl, rfl⟩

/-- C10: every construction entry point (`new`, `simple_single_shot`,
`single_shot`, `periodic`) returns a handle with address 0x44, accuracy
High, temperature unit Fahrenheit and the heater flag off. -/
theorem c10_constructor_defaults {I2C : Type} (i2c : I2C) (m1 : SimpleSingleShot)
    (m2 : SingleShot) (m3 : Periodic) :
    ((SHT31.new i2c).address = 0x44 ∧ (SHT31.new i2c).accuracy = Accuracy.High ∧
      (SHT31.new i2c).unit = TemperatureUnit.Fahrenheit ∧ (SHT31.new i2c).heater = false) ∧
    ((SHT31.simple_single_shot i2c m1).address = 0x44 ∧
      (SHT31.simple_single_shot i2c m1).accuracy = Accuracy.High ∧
      (SHT31.simple_single_shot i2c m1).unit = TemperatureUnit.Fahrenheit ∧
      (SHT31.simple_single_shot i2c m1).heater = false) ∧
    ((SHT31.single_shot i2c m2).address = 0x44 ∧
      (SHT31.single_shot i2c m2).accuracy = Accuracy.High ∧
      (SHT31.single_shot i2c m2).unit = TemperatureUnit.Fahrenheit ∧
      (SHT31.single_shot i2c m2).heater = false) ∧
    ((SHT31.periodic i2c m3).address = 0x44 ∧
      (SHT31.periodic i2c m3).accuracy = Accuracy.High ∧
      (SHT31.periodic i2c m3).unit = TemperatureUnit.Fahrenheit ∧
      (SHT31.periodic i2c m3).heater = false) :=
  ⟨⟨rfl, rfl, rfl, rfl⟩, ⟨rfl, rfl, rfl, rfl⟩, ⟨rfl, rfl, rfl, rfl⟩, ⟨rfl, rfl, rfl, rfl⟩⟩

theorem read_retry_loop_all_fail (unit : TemperatureUnit)
    (transport : Nat → Except Unit Buffer6)
    (hfail : ∀ k, exceptIsError (single_shot_read_model unit (transport k)) = true) :
    ∀ (fuel reads sleeps : Nat) (last : Except SHTError Reading),
      read_retry_loop unit transport fuel reads sleeps last =
        ⟨if fuel = 0 then last
          else single_shot_read_model unit (transport (reads + fuel - 1)),
         1, reads + fuel, sleeps + fuel⟩ := by
  intro fuel
  induction fuel with
  | zero =>
    intro reads sleeps last
    simp [read_retry_loop]
  | succ n ih =>
    intro reads sleeps last
    obtain ⟨e, he⟩ := (exceptIsError_iff _).mp (hfail reads)
    have step : read_retry_loop unit transport (n + 1) reads sleeps last =
        read_retry_loop unit transport n (reads + 1) (sleeps + 1) (Except.error e) := by
      rw [read_retry_loop, he]
    rw [step, ih (reads + 1) (sleeps + 1) (Except.error e)]
    rcases Nat.eq_zero_or_pos n with hn | hn
    · subst hn
      simp [he]
    · have hns : n ≠ 0 := Nat.pos_iff_ne_zero.mp hn
      simp only [hns, if_false, Nat.succ_ne_zero]
      have harith1 : reads + 1 + n - 1 = reads + (n + 1) - 1 := by omega
      have harith2 : reads + 1 + n = reads + (n + 1) := by omega
      have harith3 : sleeps + 1 + n = sleeps + (n + 1) := by omega
      rw [harith1, harith2, harith3]

/-- C3: in Single-Shot-With-Retry `read()` with max_retries = N and a
transport whose every read attempt fails, the measure command is written
once, exactly N read attempts are performed (not N+1), and the final
attempt's failure is returned; with N = 0 the write happens, no read is
attempted, and the `PlaceholderError` (internal-inconsistency) kind is
returned. -/
theorem c3_retry_count {I2C : Type} (s : SHT31 SimpleSingleShot I2C)
    (transport : Nat → Except Unit Buffer6)
    (hfail : ∀ k, exceptIsError (single_shot_read_model s.unit (transport k)) = true) :
    (simple_single_shot_read s true transport).writes = 1 ∧
    (simple_single_shot_read s true transport).reads = s.mode.max_retries ∧
    (simple_single_shot_read s true transport).result =
      (if s.mode.max_retries = 0 then Except.error SHTError.PlaceholderError
       else single_shot_read_model s.unit (transport (s.mode.max_retries - 1))) := by
  unfold simple_single_shot_read
  rw [if_pos rfl, read_retry_loop_all_fail s.unit transport hfail]
  simp

/-- Witness for C3: with max_retries = 2 and a transport failing every read,
the trace shows exactly 2 read attempts and the final read failure. -/
theorem c3_retry_count_witness :
    (simple_single_shot_read (SHT31.simple_single_shot () ⟨2, 100⟩) true
      (fun _ => Except.error ())).reads = 2 ∧
    (simple_single_shot_read (SHT31.simple_single_shot () ⟨2, 100⟩) true
      (fun _ => Except.error ())).result = Except.error SHTError.ReadI2CError := by
  have h := c3_retry_count (SHT31.simple_single_shot () ⟨2, 100⟩)
    (fun _ => Except.error ()) (fun _ => rfl)
  exact ⟨h.2.1, by rw [h.2.2]; rfl⟩

/-- C5 counterexample: with max_retries = 1 and a transport whose only read
attempt fails, the code sleeps once (the sleep runs inside the loop after
the failed attempt, before the exhausted loop exits), whereas the claim
predicts N - 1 = 0 delays. -/
theorem c5_sleep_counterexample :
    (simple_single_shot_read (SHT31.simple_single_shot () ⟨1, 100⟩) true
      (fun _ => Except.error ())).sleeps = 1 ∧
    (simple_single_shot_read (SHT31.simple_single_shot () ⟨1, 100⟩) true
      (fun _ => Except.error ())).sleeps ≠ 1 - 1 :=
  ⟨rfl, by intro h; exact absurd (rfl.symm.trans h) (by decide)⟩

/-- C5 amended: the blocking delay is invoked after EVERY failed read
attempt, including the last: with max_retries = N ≥ 1 and all N attempts
failing, exactly N delays occur (not N - 1). -/
theorem c5_sleep_after_every_failure {I2C : Type} (s : SHT31 SimpleSingleShot I2C)
    (transport : Nat → Except Unit Buffer6)
    (_hN : 1 ≤ s.mode.max_retries)
    (hfail : ∀ k, exceptIsError (single_shot_read_model s.unit (transport k)) = true) :
    (simple_single_shot_read s true transport).sleeps = s.mode.max_retries := by
  unfold simple_single_shot_read
  rw [if_pos rfl, read_retry_loop_all_fail s.unit transport hfail]
  simp

/-- Witness for the amended C5 at max_retries = 1: one failed attempt, one
sleep. -/
theorem c5_sleep_after_every_failure_witness :
    (simple_single_shot_read (SHT31.simple_single_shot () ⟨1, 100⟩) true
      (fun _ => Except.error ())).sleeps = 1 :=
  c5_sleep_after_every_failure (SHT31.simple_single_shot () ⟨1, 100⟩)
    (fun _ => Except.error ()) (by decide) (fun _ => rfl)

end SHT
